import Mathlib

/-!
Shallow embedding of the rpa-dreamina repository (multi-window task
distribution, points/credit monitoring, and spreadsheet bookkeeping),
together with theorems settling the frozen claims about it.

Sources embedded:
  - src/points_monitor.py   (PointsMonitor: check_points, _safe_extract_points,
                             _parse_points_from_text, _parse_points_from_page_text)
  - src/multi_window_manager.py (WindowInstance, TaskQueue bookkeeping,
                             MultiWindowManager._worker_thread loop body,
                             _setup_window, _restart_window)
  - src/excel_processor.py  (get_unprocessed_prompts, mark_prompt_as_processed)

Modelling conventions: Python exceptions are surfaced as explicit
Except-style values produced by environment oracles (one oracle per
underlying page / browser / regex operation); a try/except in the source
becomes a pattern match on such a value.  Machine floats used for
timestamps are modelled as rationals.  Regular-expression primitives
(re.findall, re.search) are uninterpreted oracles keyed by the literal
pattern string, since the claims only concern what the surrounding code
does with their output.
-/

namespace Dreamina

/-- Message carried by a Python exception. -/
abbrev PyErr := String

/-- Outcome of a Python call that may raise: either a value or an exception. -/
abbrev Py (α : Type) := Except PyErr α

/-- Python substring test, needle occurring inside hay. -/
def contains_sub (hay needle : String) : Bool :=
  (hay.splitOn needle).length > 1

/-- Test from points_monitor.py used in every except clause: the message
mentions a cross-thread switch or a greenlet. -/
def is_greenlet_error (msg : String) : Bool :=
  contains_sub msg "Cannot switch to a different thread" ||
    contains_sub msg.toLower "greenlet"

/-- Range check appearing in both parsers of points_monitor.py:
points are accepted only between 0 and 10000. -/
def points_reasonable (p : Int) : Bool :=
  decide (0 ≤ p) && decide (p ≤ 10000)

/-- Value of a digit string. -/
def digits_to_nat (l : List Char) : Nat :=
  l.foldl (fun acc c => acc * 10 + (c.toNat - 48)) 0

/-- Python int() applied to a regex capture or an isdigit-checked text:
an optionally negated digit string parses, anything else raises
ValueError, which the source turns into a loop continue (the whitespace
and underscore forms int() also accepts cannot come out of a digit-only
regex capture and are not modelled). -/
def py_int (s : String) : Option Int :=
  match s.data with
  | [] => none
  | c :: rest =>
    if c = '-' then
      if !rest.isEmpty && rest.all Char.isDigit then
        some (-(digits_to_nat rest : Int))
      else none
    else if (c :: rest).all Char.isDigit then some (digits_to_nat (c :: rest) : Int)
    else none

/-- Python str.strip: drop leading and trailing whitespace. -/
def py_strip (s : String) : String :=
  String.mk (((s.data.dropWhile Char.isWhitespace).reverse.dropWhile
    Char.isWhitespace).reverse)

/-- Python str.isdigit over the stripped text (nonempty, all digits). -/
def py_isdigit (s : String) : Bool :=
  !s.data.isEmpty && s.data.all Char.isDigit

/-- Regex patterns of PointsMonitor._parse_points_from_page_text, in source
order. -/
def page_text_patterns : List String :=
  ["积分[：:]\\s*(\\d+)",
   "剩余积分[：:]\\s*(\\d+)",
   "余额[：:]\\s*(\\d+)",
   "points[：:]\\s*(\\d+)",
   "remaining\\s+points[：:]\\s*(\\d+)",
   "balance[：:]\\s*(\\d+)",
   "(\\d+)\\s*积分",
   "(\\d+)\\s*points"]

/-- Regex patterns of PointsMonitor._parse_points_from_text, in source
order. -/
def text_patterns : List String :=
  ["(\\d+)\\s*积分",
   "积分[：:]\\s*(\\d+)",
   "(\\d+)\\s*points",
   "points[：:]\\s*(\\d+)",
   "余额[：:]\\s*(\\d+)",
   "balance[：:]\\s*(\\d+)"]

/-- Loop body of _parse_points_from_page_text: for each pattern take
re.findall results; on a first match parse it, keep it only if it lies in
the 0..10000 range, otherwise (or on ValueError) fall through to the next
pattern. The findall oracle stands for re.findall(pattern, page_text). -/
def findall_loop (groups : List (List String)) : Option Int :=
  match groups with
  | [] => none
  | g :: rest =>
    match g with
    | [] => findall_loop rest
    | m :: _ =>
      match py_int m with
      | none => findall_loop rest
      | some p => if points_reasonable p then some p else findall_loop rest

/-- PointsMonitor._parse_points_from_page_text: pure text processing over
the body text, regex matching abstracted by the findall oracle. -/
def parse_points_from_page_text (findall : String → String → List String)
    (page_text : String) : Option Int :=
  if page_text = "" then none
  else findall_loop (page_text_patterns.map (fun p => findall p page_text))

/-- Loop body of _parse_points_from_text over re.search results: first
matching pattern whose captured group parses into the 0..10000 range wins;
out-of-range or unparsable captures fall through to the next pattern. -/
def search_loop (search : String → String → Option String) (text : String) :
    List String → Option Int
  | [] => none
  | p :: rest =>
    match search p text with
    | none => search_loop search text rest
    | some g =>
      match py_int g with
      | none => search_loop search text rest
      | some v => if points_reasonable v then some v else search_loop search text rest

/-- PointsMonitor._parse_points_from_text: empty text gives None; stripped
all-digit text in range is returned directly; otherwise the pattern loop
runs on the stripped text. -/
def parse_points_from_text (search : String → String → Option String)
    (text0 : String) : Option Int :=
  if text0 = "" then none
  else
    let text := py_strip text0
    let digit_case : Option Int :=
      if py_isdigit text then
        match py_int text with
        | some p => if points_reasonable p then some p else none
        | none => none
      else none
    match digit_case with
    | some p => some p
    | none => search_loop search text text_patterns

/-- Outcome of operating on one located element inside
_safe_extract_points (nth / is_visible / text_content combined): it may
raise, be invisible, or yield its text content (possibly None). -/
inductive ElemOutcome where
  | raised (msg : PyErr)
  | hidden
  | text (t : Option String)
deriving Repr

/-- Outcome of page.locator(...).count() plus element enumeration for one
selector: the locator chain may raise, or yield the located elements. -/
inductive LocatorOutcome where
  | raised (msg : PyErr)
  | elems (es : List ElemOutcome)
deriving Repr

/-- Oracles describing every underlying page / regex operation that
check_points and _safe_extract_points can perform, including the outcomes
in which those operations raise. -/
structure PageEnv where
  /-- page.text_content("body"): may raise, may return None. -/
  text_content_body : Py (Option String)
  /-- page.evaluate returning document.body.innerText: may raise. -/
  evaluate_inner_text : Py (Option String)
  /-- page.locator for an xpath selector, with element probing. -/
  locate : String → LocatorOutcome
  /-- page.locator(text=...).count() for an insufficient-points indicator. -/
  indicator_count : String → Py Nat
  /-- the page.url probe at the top of check_points. -/
  url_check : Py Unit
  /-- re.findall(pattern, text) capture groups. -/
  findall : String → String → List String
  /-- re.search(pattern, text) first captured group. -/
  search : String → String → Option String

/-- Selectors of the element-extraction method of _safe_extract_points
(reliable_selectors in the source), already wrapped the way the source
passes them to page.locator. -/
def reliable_selectors : List String :=
  ["xpath=//span[contains(@class, \x27creditText\x27)]",
   "xpath=//span[contains(text(), \x27积分\x27)]"]

/-- Indicator strings of the insufficient-points fallback of
_safe_extract_points, wrapped as text locators like the source does. -/
def insufficient_indicators : List String :=
  ["text=积分不足", "text=余额不足", "text=insufficient points"]

/-- Inner element loop of method 2 of _safe_extract_points: each element is
probed; any exception (greenlet or not) just continues with the next
element, invisible elements and empty text are skipped, and the first
parsable element text in range is returned. -/
def extract_elems_loop (search : String → String → Option String) :
    List ElemOutcome → Option Int
  | [] => none
  | e :: rest =>
    match e with
    | .raised _ => extract_elems_loop search rest
    | .hidden => extract_elems_loop search rest
    | .text none => extract_elems_loop search rest
    | .text (some t) =>
      if t = "" then extract_elems_loop search rest
      else
        match parse_points_from_text search t with
        | some v => some v
        | none => extract_elems_loop search rest

/-- Selector loop of method 2 of _safe_extract_points: a raising locator
(greenlet or not) continues with the next selector; at most the first three
located elements are examined. -/
def extract_selectors_loop (env : PageEnv) : List String → Option Int
  | [] => none
  | s :: rest =>
    match env.locate s with
    | .raised _ => extract_selectors_loop env rest
    | .elems es =>
      match extract_elems_loop env.search (es.take 3) with
      | some v => some v
      | none => extract_selectors_loop env rest

/-- Indicator loop of method 3 of _safe_extract_points: a raising count
(greenlet or not) continues with the next indicator; a positive count means
the insufficient-points warning is visible and 0 points are reported. -/
def indicator_loop (env : PageEnv) : List String → Option Int
  | [] => none
  | ind :: rest =>
    match env.indicator_count ind with
    | .error _ => indicator_loop env rest
    | .ok n => if n > 0 then some 0 else indicator_loop env rest

/-- Control-flow result of method 1 (page text extraction) of
_safe_extract_points: an early function-level return of None (greenlet), a
found value, or a fall-through to method 2. -/
inductive M1 where
  | early_none
  | found (v : Int)
  | fallthrough
deriving Repr

/-- Shared tail of method 1: once the page text is known, parse it; a
missing or empty text falls through. -/
def method1_after (env : PageEnv) (pt : Option String) : M1 :=
  match pt with
  | none => .fallthrough
  | some t =>
    if t = "" then .fallthrough
    else
      match parse_points_from_page_text env.findall t with
      | some v => .found v
      | none => .fallthrough

/-- Method 1 of _safe_extract_points: try page.text_content("body"); on a
greenlet error return None for the whole extraction, on any other error
fall back to page.evaluate; a greenlet error there again returns None, any
other error leaves the text unset and falls through. -/
def method1 (env : PageEnv) : M1 :=
  match env.text_content_body with
  | .ok pt => method1_after env pt
  | .error pe =>
    if is_greenlet_error pe then .early_none
    else
      match env.evaluate_inner_text with
      | .ok pt => method1_after env pt
      | .error ee =>
        if is_greenlet_error ee then .early_none
        else method1_after env none

/-- PointsMonitor._safe_extract_points: method 1 (page text), then method 2
(element extraction), then method 3 (insufficient-points indicators); if
every method fails the extraction reports None.  Every exception an oracle
reports is consumed here or in the loops above, mirroring the catch-all
except clauses of the source, so the function is total over all oracle
outcomes. -/
def safe_extract_points (env : PageEnv) : Option Int :=
  match method1 env with
  | .found v => some v
  | .early_none => none
  | .fallthrough =>
    match extract_selectors_loop env reliable_selectors with
    | some v => some v
    | none =>
      match indicator_loop env insufficient_indicators with
      | some z => some z
      | none => none

/-- Entry of the module-level _points_cache of points_monitor.py. -/
structure CacheEntry where
  points : Int
  timestamp : Rat
deriving Repr, DecidableEq

/-- The module-level _points_cache, keyed by id(page). -/
abbrev Cache := List (Nat × CacheEntry)

/-- Dictionary lookup in the cache. -/
def cache_lookup (c : Cache) (k : Nat) : Option CacheEntry :=
  match c.find? (fun e => e.1 == k) with
  | some e => some e.2
  | none => none

/-- Dictionary deletion in the cache. -/
def cache_erase (c : Cache) (k : Nat) : Cache :=
  c.filter (fun e => !(e.1 == k))

/-- Dictionary insertion in the cache. -/
def cache_insert (c : Cache) (k : Nat) (e : CacheEntry) : Cache :=
  (k, e) :: cache_erase c k

/-- The module-level _cache_expiry_seconds constant (10 seconds). -/
def cache_expiry_seconds : Rat := 10

/-- Observable outcome of one check_points call: the returned balance, the
cache afterwards, and an instrumentation flag recording whether the page
was scraped (the locked extraction section was entered). -/
structure CheckPointsResult where
  result : Option Int
  cache : Cache
  scraped : Bool
deriving Repr, DecidableEq

/-- Scraping phase of check_points, reached on a cache miss or an expired
entry: first the page.url cross-thread probe (a greenlet failure returns
None at once, any other failure is swallowed), then the locked call to
_safe_extract_points, whose non-None result is cached with the timestamp
taken at call start. The enclosing try/except of the source maps every
exception to None; since all oracle outcomes are already consumed by
safe_extract_points, that handler has nothing left to catch here. -/
def check_points_scrape (env : PageEnv) (page_id : Nat) (current_time : Rat)
    (cache : Cache) : CheckPointsResult :=
  let url_blocked : Bool :=
    match env.url_check with
    | .ok _ => false
    | .error m => is_greenlet_error m
  if url_blocked then ⟨none, cache, false⟩
  else
    match safe_extract_points env with
    | some v => ⟨some v, cache_insert cache page_id ⟨v, current_time⟩, true⟩
    | none => ⟨none, cache, true⟩

/-- PointsMonitor.check_points: a cache entry younger than 10 seconds is
returned without touching the page; an older entry is deleted and the page
is scraped; a missing entry scrapes directly.  current_time is the
time.time() value taken at call start, page_id is id(page). -/
def check_points (env : PageEnv) (page_id : Nat) (current_time : Rat)
    (cache : Cache) : CheckPointsResult :=
  match cache_lookup cache page_id with
  | some e =>
    if current_time - e.timestamp < cache_expiry_seconds then
      ⟨some e.points, cache, false⟩
    else
      check_points_scrape env page_id current_time (cache_erase cache page_id)
  | none => check_points_scrape env page_id current_time cache

/-- One generation job as built by excel_processor.get_unprocessed_prompts
(the fields the worker loop and the claims use). -/
structure Task where
  prompt : String
  excel_file_path : String
  row_number : Nat
deriving Repr, DecidableEq

/-- Entry of TaskQueue.failed_tasks: the task together with str(error). -/
structure FailedTask where
  task : Task
  error : String
deriving Repr, DecidableEq

/-- Combined state of one WindowInstance and the shared TaskQueue, as seen
by that window's worker thread.  pending is task_queue.queue (head =
front), completed and failed are the outcome lists of TaskQueue,
completed_count / failed_count are the per-window counters, and gen_calls
is an instrumentation counter incremented exactly when
generate_image_on_page is invoked. -/
structure WorkerState where
  status : String
  current_task : Option Task
  error_count : Nat
  completed_count : Nat
  failed_count : Nat
  pending : List Task
  completed : List Task
  failed : List FailedTask
  gen_calls : Nat
deriving Repr, DecidableEq

/-- WindowInstance.__init__ together with a fresh TaskQueue holding the
given pending tasks: status starts as idle and every counter at zero. -/
def initial_window_state (pending : List Task) : WorkerState :=
  { status := "idle", current_task := none, error_count := 0,
    completed_count := 0, failed_count := 0, pending := pending,
    completed := [], failed := [], gen_calls := 0 }

/-- Effect of one MultiWindowManager._restart_window call on the window
state: success (setup succeeded, status idle, consecutive errors reset),
setup_failed (_setup_window exhausted its retries, which sets status to
error and bumps error_count), or raised (the cleanup part of the restart
raised, the handler returns False with the state untouched). -/
inductive RestartEffect where
  | success
  | setup_failed
  | raised (msg : PyErr)
deriving Repr

/-- Whether a RestartEffect corresponds to _restart_window returning True. -/
def RestartEffect.ok : RestartEffect → Bool
  | .success => true
  | _ => false

/-- Environment of one iteration of the worker loop: the configuration
values read inside the loop and the outcome of each external call the
iteration can make.  check_page_connection and _restart_window contain
their own catch-all handlers and therefore only report booleans / effects;
check_points never raises; generate_image_on_page may raise, which the
except clause of the worker loop handles. -/
structure IterEnv where
  points_enabled : Bool
  min_points_threshold : Int
  page_connected : Bool
  restart : RestartEffect
  points_balance : Option Int
  gen_result : Py (List String)

/-- TaskQueue.mark_failed as the worker calls it for queue-level failures
that do not touch the per-window failed counter. -/
def mark_failed_q (s : WorkerState) (t : Task) (msg : String) : WorkerState :=
  { s with failed := s.failed ++ [⟨t, msg⟩] }

/-- Generation section of the worker loop (lines 386..412 of
multi_window_manager.py): run generate_image_on_page; a non-empty result
records the task completed (window counter, queue list, Excel marking not
modelled here) and returns the window to idle; an empty result records it
failed; an exception lands in the except clause of the loop, which sets the
window to error, bumps error_count, and marks the current task failed with
the exception text. -/
def worker_generate (env : IterEnv) (s : WorkerState) (task : Task) :
    WorkerState :=
  match env.gen_result with
  | .ok imgs =>
    if imgs.length > 0 then
      { s with completed_count := s.completed_count + 1,
               completed := s.completed ++ [task],
               status := "idle", current_task := none,
               gen_calls := s.gen_calls + 1 }
    else
      { s with failed_count := s.failed_count + 1,
               failed := s.failed ++ [⟨task, "图片生成失败"⟩],
               status := "idle", current_task := none,
               gen_calls := s.gen_calls + 1 }
  | .error m =>
    { s with status := "error", error_count := s.error_count + 1,
             failed := s.failed ++ [⟨task, m⟩], current_task := none,
             gen_calls := s.gen_calls + 1 }

/-- Points gate plus generation (lines 372..412): when points monitoring is
enabled and check_points produced a balance below the threshold, the window
is paused and the task is put back at the end of the queue; otherwise the
generation section runs. -/
def worker_process_task (env : IterEnv) (s : WorkerState) (task : Task) :
    WorkerState :=
  if env.points_enabled then
    match env.points_balance with
    | some pb =>
      if pb < env.min_points_threshold then
        { s with status := "paused", pending := s.pending ++ [task] }
      else worker_generate env s task
    | none => worker_generate env s task
  else worker_generate env s task

/-- Effect of _restart_window on the modelled window state (used by the
error branch at the top of the loop and by the page-connection branch). -/
def apply_restart (eff : RestartEffect) (s : WorkerState) : WorkerState :=
  match eff with
  | .success => { s with status := "idle", error_count := 0 }
  | .setup_failed => { s with status := "error", error_count := s.error_count + 1 }
  | .raised _ => s

/-- One iteration of the while-loop body of
MultiWindowManager._worker_thread (lines 339..430): the error branch tries
a restart; the paused branch only sleeps; otherwise a task is dequeued (a
queue timeout leaves the state unchanged), the page connection is checked
with a restart and a queue-level failure record on double failure, then the
points gate and the generation section run. -/
def worker_iteration (env : IterEnv) (s : WorkerState) : WorkerState :=
  if s.status = "error" then
    apply_restart env.restart s
  else if s.status = "paused" then
    s
  else
    match s.pending with
    | [] => s
    | task :: rest =>
      let s1 : WorkerState :=
        { s with pending := rest, status := "working", current_task := some task }
      if env.page_connected then
        worker_process_task env s1 task
      else
        match env.restart with
        | .success =>
          worker_process_task env { s1 with status := "idle", error_count := 0 } task
        | .setup_failed =>
          mark_failed_q { s1 with status := "error", error_count := s1.error_count + 1 }
            task "页面连接失败"
        | .raised _ => mark_failed_q s1 task "页面连接失败"

/-- Multiset of tasks the queue accounts for: still pending, recorded
completed, or recorded failed. -/
def accounted (s : WorkerState) : Multiset Task :=
  (s.pending : Multiset Task) + (s.completed : Multiset Task) +
    ((s.failed.map FailedTask.task : List Task) : Multiset Task)

/-- The four statuses the spec allows for a window. -/
def status_ok (st : String) : Prop :=
  st = "idle" ∨ st = "working" ∨ st = "paused" ∨ st = "error"

/-- Outcome of one attempt of the retry loop of _setup_window: the attempt
reaches the success exit, fails through one of the retry_count += 1 /
continue paths (browser did not open, no debug address, CDP connect failed,
no context, page setup failed, bad title), or raises into the except
clause. -/
inductive AttemptOutcome where
  | success
  | failed
  | raised (msg : PyErr)
deriving Repr, DecidableEq

/-- Result of _setup_window / _restart_window on the modelled state,
together with the number of attempts the retry loop made. -/
structure SetupResult where
  ok : Bool
  window : WorkerState
  attempts : Nat
deriving Repr, DecidableEq

/-- Retry loop of _setup_window.  The loop runs while retry_count <
max_retries, so the remaining iteration budget (fuel) is max_retries -
retry_count; the source only writes status / error_count at the exits: on
success status becomes idle, and when the retries are exhausted (either by
the loop condition or inside the except clause) status becomes error and
error_count is incremented once. -/
def setup_window_loop (attempt : Nat → AttemptOutcome) (max_retries : Nat)
    (s : WorkerState) : Nat → Nat → SetupResult
  | _, 0 => ⟨false, { s with status := "error", error_count := s.error_count + 1 }, 0⟩
  | rc, fuel + 1 =>
    match attempt rc with
    | .success => ⟨true, { s with status := "idle" }, 1⟩
    | .failed =>
      let r := setup_window_loop attempt max_retries s (rc + 1) fuel
      ⟨r.ok, r.window, r.attempts + 1⟩
    | .raised _ =>
      if rc + 1 < max_retries then
        let r := setup_window_loop attempt max_retries s (rc + 1) fuel
        ⟨r.ok, r.window, r.attempts + 1⟩
      else
        ⟨false, { s with status := "error", error_count := s.error_count + 1 }, 1⟩

/-- MultiWindowManager._setup_window with max_retries read from the
configuration: at most max_retries attempts are made. -/
def setup_window (attempt : Nat → AttemptOutcome) (max_retries : Nat)
    (s : WorkerState) : SetupResult :=
  setup_window_loop attempt max_retries s 0 max_retries

/-- Outcome of the cleanup part of _restart_window (closing page, browser
and remote browser profile), which sits inside the try of
_restart_window. -/
inductive CleanupOutcome where
  | ok
  | raised (msg : PyErr)
deriving Repr

/-- MultiWindowManager._restart_window: clean up old resources (an
exception there is caught and reported as False with the state untouched),
then run _setup_window once; on success the consecutive error counter is
reset, on failure False is returned without any further retrying beyond the
bounded loop inside _setup_window. -/
def restart_window (cleanup : CleanupOutcome) (attempt : Nat → AttemptOutcome)
    (max_retries : Nat) (s : WorkerState) : SetupResult :=
  match cleanup with
  | .raised _ => ⟨false, s, 0⟩
  | .ok =>
    let r := setup_window attempt max_retries s
    if r.ok then ⟨true, { r.window with error_count := 0 }, r.attempts⟩
    else ⟨false, r.window, r.attempts⟩

/-- MultiWindowManager._cleanup_window: closes the page, the browser, the
Playwright instance and the remote profile; it assigns no status and
touches none of the modelled fields. -/
def cleanup_window (s : WorkerState) : WorkerState :=
  s

/-- One spreadsheet cell as pandas sees it: none is NaN (an empty cell),
some s is the cell text (numbers are represented by their text). -/
abbrev Cell := Option String

/-- Column access of excel_processor.py: row.iloc[col - 1] when the row has
at least col cells, otherwise None (the call sites use 1-based column
numbers from the configuration). -/
def cell_at (row : List Cell) (col : Nat) : Cell :=
  if col ≤ row.length then row.getD (col - 1) none else none

/-- Validity test of the prompt cell (pd.notna plus nonempty strip),
returning the stripped prompt text the task will carry. -/
def prompt_cell_text (c : Cell) : Option String :=
  match c with
  | none => none
  | some s => if py_strip s = "" then none else some (py_strip s)

/-- Status-cell test of get_unprocessed_prompts: the cell is non-NaN and
its stripped text is the configured processed marker or the fixed
needs-changing marker. -/
def status_is_processed (status_text : String) (c : Cell) : Bool :=
  match c with
  | none => false
  | some s => py_strip s == status_text || py_strip s == "提示词有问题，需修改"

/-- Row loop of get_unprocessed_prompts for one Excel file
(excel_processor.py lines 184..228), with the already-generated-image check
(check_if_prompt_generated_in_subfolder) abstracted as the oracle
generated.  The arguments after the row list are the 1-based number of the
first row of the list and the seen_prompts_globally set (as a list used
only through membership); the result is the emitted tasks together with the
final seen set.  Rows before start_row are skipped; an invalid prompt cell
is skipped without touching the seen set; a duplicate prompt is skipped; a
processed or needs-changing status, or an already generated image, record
the prompt as seen and skip; otherwise a task with the stripped prompt, the
file path and the row number is emitted. -/
def process_file_rows (file_path status_text : String)
    (prompt_col status_col start_row : Nat) (generated : String → Bool) :
    List (List Cell) → Nat → List String → List Task × List String
  | [], _, seen => ([], seen)
  | row :: rows, i, seen =>
    if i < start_row then
      process_file_rows file_path status_text prompt_col status_col start_row
        generated rows (i + 1) seen
    else
      match prompt_cell_text (cell_at row prompt_col) with
      | none =>
        process_file_rows file_path status_text prompt_col status_col start_row
          generated rows (i + 1) seen
      | some p =>
        if p ∈ seen then
          process_file_rows file_path status_text prompt_col status_col start_row
            generated rows (i + 1) seen
        else if status_is_processed status_text (cell_at row status_col) then
          process_file_rows file_path status_text prompt_col status_col start_row
            generated rows (i + 1) (p :: seen)
        else if generated p then
          process_file_rows file_path status_text prompt_col status_col start_row
            generated rows (i + 1) (p :: seen)
        else
          let r := process_file_rows file_path status_text prompt_col status_col
            start_row generated rows (i + 1) (p :: seen)
          (⟨p, file_path, i⟩ :: r.1, r.2)

/-- excel_processor.get_unprocessed_prompts for a single Excel file, read
as a row list, starting with an empty seen set (the source threads the same
set across the files of all subfolders; one file is the instance the claim
is about). -/
def get_unprocessed_prompts (file_path status_text : String)
    (prompt_col status_col start_row : Nat) (generated : String → Bool)
    (rows : List (List Cell)) : List Task :=
  (process_file_rows file_path status_text prompt_col status_col start_row
    generated rows 1 []).1

/-- Stripped prompt texts of the rows at or after start_row in a list of
already scanned rows (1-based row numbers starting at 1). -/
def prior_prompts (prompt_col start_row : Nat) (scanned : List (List Cell)) :
    List String :=
  (scanned.drop (start_row - 1)).filterMap (fun row => prompt_cell_text (cell_at row prompt_col))

/-- Modelled from the amended claim wording: per-row specification of which
tasks get_unprocessed_prompts returns.  A row (1-based number i, scanned
rows before it given explicitly) contributes exactly one task when i is at
or after start_row, its prompt cell strips to a nonempty text that does not
occur among the stripped prompts of earlier rows at or after start_row, its
status cell carries neither the processed marker nor the needs-changing
marker, and no image was already generated for the prompt. -/
def spec_tasks (file_path status_text : String)
    (prompt_col status_col start_row : Nat) (generated : String → Bool) :
    List (List Cell) → Nat → List (List Cell) → List Task
  | [], _, _ => []
  | row :: rows, i, scanned =>
    let rest := spec_tasks file_path status_text prompt_col status_col start_row
      generated rows (i + 1) (scanned ++ [row])
    if i < start_row then rest
    else
      match prompt_cell_text (cell_at row prompt_col) with
      | none => rest
      | some p =>
        if p ∈ prior_prompts prompt_col start_row scanned then rest
        else if status_is_processed status_text (cell_at row status_col) then rest
        else if generated p then rest
        else ⟨p, file_path, i⟩ :: rest

/-- Width of the rectangular DataFrame pandas builds from a sheet: the
longest row. -/
def sheet_width (sheet : List (List Cell)) : Nat :=
  sheet.foldr (fun r acc => max r.length acc) 0

/-- NaN padding of one row up to the given width. -/
def pad_row (w : Nat) (row : List Cell) : List Cell :=
  row ++ List.replicate (w - row.length) none

/-- excel_processor.mark_prompt_as_processed on the sheet contents: read
the sheet as a rectangular DataFrame, reindex to max(status_column, width)
columns (padding with NaN), write status_text into the cell at the 1-based
row_number / status_column, and save.  A row_number beyond the sheet makes
df.iloc raise IndexError, which the catch-all handler turns into leaving
the file untouched. -/
def mark_prompt_as_processed (sheet : List (List Cell))
    (row_number status_column : Nat) (status_text : String) :
    List (List Cell) :=
  let mc := max status_column (sheet_width sheet)
  let rect := sheet.map (pad_row mc)
  if row_number - 1 < rect.length then
    rect.set (row_number - 1)
      ((rect.getD (row_number - 1) []).set (status_column - 1) (some status_text))
  else sheet

/-- A concrete page environment whose body text scrape succeeds and whose
findall oracle captures the given digit string, used by witnesses and
counterexamples. -/
def sample_env (v : String) : PageEnv :=
  { text_content_body := .ok (some "credits"),
    evaluate_inner_text := .ok none,
    locate := fun _ => .elems [],
    indicator_count := fun _ => .ok 0,
    url_check := .ok (),
    findall := fun _ _ => [v],
    search := fun _ _ => none }

/-- A page environment in which every page operation raises with the given
message and both regex oracles find nothing. -/
def all_error_env (m : PyErr) : PageEnv :=
  { text_content_body := .error m,
    evaluate_inner_text := .error m,
    locate := fun _ => .raised m,
    indicator_count := fun _ => .error m,
    url_check := .error m,
    findall := fun _ _ => [],
    search := fun _ _ => none }

/-- A concrete task used by witnesses and counterexamples. -/
def cex_task : Task :=
  ⟨"cat", "f.xlsx", 2⟩

/-- A concrete iteration environment in which the scraped balance 2 lies
below the threshold 4. -/
def gate_env : IterEnv :=
  { points_enabled := true, min_points_threshold := 4, page_connected := true,
    restart := .success, points_balance := some 2, gen_result := .ok ["img"] }

/-- A concrete window state already paused by the credit gate. -/
def paused_state : WorkerState :=
  { initial_window_state [cex_task] with status := "paused" }

/-- A concrete sheet with a header row and two data rows carrying the same
prompt text, used against the task-extraction claim. -/
def cex_rows : List (List Cell) :=
  [[some "标题"], [none, some "cat", none], [none, some "cat", none]]

/-- A concrete ragged sheet used by the frame-condition witness. -/
def wit_sheet : List (List Cell) :=
  [[some "a", some "b"], [some "c"]]

/-- A concrete attempt oracle for which every setup attempt fails. -/
def failing_attempts : Nat → AttemptOutcome :=
  fun _ => AttemptOutcome.failed

/-!  Theorems.  Helper lemmas come first; each claim is settled by exactly
one theorem, marked with its claim id. -/

theorem accounted_fields (s : WorkerState) :
    accounted s = (s.pending : Multiset Task) + (s.completed : Multiset Task) +
      ((s.failed.map FailedTask.task : List Task) : Multiset Task) :=
  rfl

theorem accounted_generate (env : IterEnv) (s : WorkerState) (t : Task) :
    accounted (worker_generate env s t) = accounted s + {t} := by
  unfold worker_generate
  cases env.gen_result with
  | ok imgs =>
    by_cases h : imgs.length > 0 <;>
      simp only [h, if_true, if_false, accounted, List.map_append, List.map_cons,
        List.map_nil, ← Multiset.coe_add, Multiset.coe_singleton, reduceIte] <;>
      abel
  | error m =>
    simp only [accounted, List.map_append, List.map_cons, List.map_nil,
      ← Multiset.coe_add, Multiset.coe_singleton]
    abel

theorem accounted_mark_failed (s : WorkerState) (t : Task) (msg : String) :
    accounted (mark_failed_q s t msg) = accounted s + {t} := by
  simp only [mark_failed_q, accounted, List.map_append, List.map_cons,
    List.map_nil, ← Multiset.coe_add, Multiset.coe_singleton]
  abel

theorem accounted_process (env : IterEnv) (s : WorkerState) (t : Task) :
    accounted (worker_process_task env s t) = accounted s + {t} := by
  unfold worker_process_task
  by_cases he : env.points_enabled
  · cases hb : env.points_balance with
    | some pb =>
      by_cases hlt : pb < env.min_points_threshold
      · simp only [he, hb, hlt, if_true, reduceIte, accounted, List.map_append,
          ← Multiset.coe_add, Multiset.coe_singleton]
        abel
      · simp [he, hb, hlt, accounted_generate]
    | none => simp [he, hb, accounted_generate]
  · simp [he, accounted_generate]

/-- C2: task conservation.  One iteration of the worker loop preserves the
multiset of tasks accounted for by the queue: every task the iteration
dequeues ends up, by the end of the iteration, exactly once back in the
pending queue (credit gate), in the completed list, or in the failed list,
whatever the outcomes of the page-connection check, the restart, the
points read, and the generation call (including a raised exception). -/
theorem worker_iteration_accounts_every_task (env : IterEnv) (s : WorkerState) :
    accounted (worker_iteration env s) = accounted s := by
  unfold worker_iteration
  by_cases h1 : s.status = "error"
  · simp only [h1, if_true, reduceIte]
    cases env.restart <;> rfl
  · by_cases h2 : s.status = "paused"
    · simp [h1, h2]
    · cases hp : s.pending with
      | nil => simp [h1, h2, hp]
      | cons task rest =>
        have hs : accounted s =
            ((task :: rest : List Task) : Multiset Task) +
              (s.completed : Multiset Task) +
              ((s.failed.map FailedTask.task : List Task) : Multiset Task) := by
          rw [accounted_fields, hp]
        by_cases hc : env.page_connected
        · simp only [h1, h2, hp, hc, if_true, if_false, reduceIte]
          rw [accounted_process, hs, accounted_fields]
          simp only [← Multiset.cons_coe, ← Multiset.singleton_add]
          abel
        · cases hr : env.restart with
          | success =>
            simp only [h1, h2, hp, hc, hr, if_false, reduceIte, Bool.false_eq_true]
            rw [accounted_process, hs, accounted_fields]
            simp only [← Multiset.cons_coe, ← Multiset.singleton_add]
            abel
          | setup_failed =>
            simp only [h1, h2, hp, hc, hr, if_false, reduceIte, Bool.false_eq_true]
            rw [accounted_mark_failed, hs, accounted_fields]
            simp only [← Multiset.cons_coe, ← Multiset.singleton_add]
            abel
          | raised m =>
            simp only [h1, h2, hp, hc, hr, if_false, reduceIte, Bool.false_eq_true]
            rw [accounted_mark_failed, hs, accounted_fields]
            simp only [← Multiset.cons_coe, ← Multiset.singleton_add]
            abel

/-- C1: credit gate.  When a task is dequeued, the page connection is
usable (directly or after a successful restart), points monitoring is
enabled, and the scraped balance lies strictly below the configured
threshold, the iteration pauses the window, puts the identical task back
onto the shared queue, runs no image generation, and records the task
neither as completed nor as failed. -/
theorem credit_gate_pauses_and_requeues (env : IterEnv) (s : WorkerState)
    (task : Task) (rest : List Task) (pb : Int)
    (hq : s.pending = task :: rest)
    (hs1 : s.status ≠ "error") (hs2 : s.status ≠ "paused")
    (hconn : env.page_connected = true ∨ env.restart = RestartEffect.success)
    (hen : env.points_enabled = true)
    (hbal : env.points_balance = some pb)
    (hlt : pb < env.min_points_threshold) :
    (worker_iteration env s).status = "paused" ∧
    (worker_iteration env s).pending = rest ++ [task] ∧
    (worker_iteration env s).completed = s.completed ∧
    (worker_iteration env s).failed = s.failed ∧
    (worker_iteration env s).completed_count = s.completed_count ∧
    (worker_iteration env s).failed_count = s.failed_count ∧
    (worker_iteration env s).gen_calls = s.gen_calls := by
  have hgate : ∀ s' : WorkerState,
      worker_process_task env s' task =
        { s' with status := "paused", pending := s'.pending ++ [task] } := by
    intro s'
    simp [worker_process_task, hen, hbal, hlt]
  rcases hconn with hc | hc
  · simp [worker_iteration, hq, hs1, hs2, hc, hgate]
  · by_cases hp : env.page_connected
    · simp [worker_iteration, hq, hs1, hs2, hp, hgate]
    · simp [worker_iteration, hq, hs1, hs2, hp, hc, hgate]

/-- Witness for C1 at a concrete environment and state. -/
theorem credit_gate_pauses_and_requeues_witness :
    (worker_iteration gate_env (initial_window_state [cex_task])).status = "paused" ∧
    (worker_iteration gate_env (initial_window_state [cex_task])).pending = [] ++ [cex_task] ∧
    (worker_iteration gate_env (initial_window_state [cex_task])).completed =
      (initial_window_state [cex_task]).completed ∧
    (worker_iteration gate_env (initial_window_state [cex_task])).failed =
      (initial_window_state [cex_task]).failed ∧
    (worker_iteration gate_env (initial_window_state [cex_task])).completed_count =
      (initial_window_state [cex_task]).completed_count ∧
    (worker_iteration gate_env (initial_window_state [cex_task])).failed_count =
      (initial_window_state [cex_task]).failed_count ∧
    (worker_iteration gate_env (initial_window_state [cex_task])).gen_calls =
      (initial_window_state [cex_task]).gen_calls :=
  credit_gate_pauses_and_requeues gate_env (initial_window_state [cex_task])
    cex_task [] 2 rfl (by decide) (by decide) (Or.inl rfl) rfl rfl (by decide)

/-- C9: pausing is permanent for the run.  A window whose status is paused
is left completely unchanged by every further iteration of the worker
loop: the paused branch only sleeps, so the window never dequeues or
processes another task for the rest of the run. -/
theorem paused_window_stays_paused (env : IterEnv) (s : WorkerState)
    (h : s.status = "paused") :
    ∀ n : Nat, (worker_iteration env)^[n] s = s := by
  have hstep : worker_iteration env s = s := by
    have hne : s.status ≠ "error" := by rw [h]; decide
    simp [worker_iteration, hne, h]
  intro n
  induction n with
  | zero => rfl
  | succ k ih => rw [Function.iterate_succ_apply, hstep, ih]

/-- Witness for C9 at a concrete paused state. -/
theorem paused_window_stays_paused_witness :
    (worker_iteration gate_env)^[3] paused_state = paused_state :=
  paused_window_stays_paused gate_env paused_state rfl 3

theorem status_ok_generate (env : IterEnv) (s : WorkerState) (t : Task) :
    status_ok (worker_generate env s t).status := by
  unfold worker_generate
  cases env.gen_result with
  | ok imgs =>
    by_cases h : imgs.length > 0
    · simp only [h, if_true, reduceIte]; exact Or.inl rfl
    · simp only [h, if_false, reduceIte]; exact Or.inl rfl
  | error m => exact Or.inr (Or.inr (Or.inr rfl))

theorem status_ok_process (env : IterEnv) (s : WorkerState) (t : Task) :
    status_ok (worker_process_task env s t).status := by
  unfold worker_process_task
  by_cases he : env.points_enabled
  · cases hb : env.points_balance with
    | some pb =>
      by_cases hlt : pb < env.min_points_threshold
      · simp only [he, hb, hlt, if_true, reduceIte]
        exact Or.inr (Or.inr (Or.inl rfl))
      · simp only [he, hb, hlt, if_false, reduceIte]
        exact status_ok_generate env s t
    | none =>
      simp only [he, hb, if_true, reduceIte]
      exact status_ok_generate env s t
  · simp only [he, Bool.false_eq_true, if_false, reduceIte]
    exact status_ok_generate env s t

theorem setup_loop_window (a : Nat → AttemptOutcome) (m : Nat) (s : WorkerState) :
    ∀ (fuel rc : Nat),
      ((setup_window_loop a m s rc fuel).ok = true ∧
        (setup_window_loop a m s rc fuel).window = { s with status := "idle" }) ∨
      ((setup_window_loop a m s rc fuel).ok = false ∧
        (setup_window_loop a m s rc fuel).window =
          { s with status := "error", error_count := s.error_count + 1 }) := by
  intro fuel
  induction fuel with
  | zero => intro rc; exact Or.inr ⟨rfl, rfl⟩
  | succ k ih =>
    intro rc
    unfold setup_window_loop
    cases h : a rc with
    | success => exact Or.inl ⟨rfl, rfl⟩
    | failed =>
      rcases ih (rc + 1) with ⟨h1, h2⟩ | ⟨h1, h2⟩
      · exact Or.inl ⟨h1, h2⟩
      · exact Or.inr ⟨h1, h2⟩
    | raised msg =>
      by_cases hlt : rc + 1 < m
      · rw [if_pos hlt]
        rcases ih (rc + 1) with ⟨h1, h2⟩ | ⟨h1, h2⟩
        · exact Or.inl ⟨h1, h2⟩
        · exact Or.inr ⟨h1, h2⟩
      · rw [if_neg hlt]
        exact Or.inr ⟨rfl, rfl⟩

theorem setup_loop_attempts (a : Nat → AttemptOutcome) (m : Nat) (s : WorkerState) :
    ∀ (fuel rc : Nat), (setup_window_loop a m s rc fuel).attempts ≤ fuel := by
  intro fuel
  induction fuel with
  | zero => intro rc; exact Nat.le_refl 0
  | succ k ih =>
    intro rc
    unfold setup_window_loop
    cases h : a rc with
    | success => exact Nat.succ_le_succ (Nat.zero_le k)
    | failed => exact Nat.succ_le_succ (ih (rc + 1))
    | raised msg =>
      by_cases hlt : rc + 1 < m
      · rw [if_pos hlt]
        exact Nat.succ_le_succ (ih (rc + 1))
      · rw [if_neg hlt]
        exact Nat.succ_le_succ (Nat.zero_le k)

theorem setup_loop_allfail (a : Nat → AttemptOutcome) (m : Nat) (s : WorkerState)
    (h : ∀ i, a i ≠ AttemptOutcome.success) :
    ∀ (fuel rc : Nat), (setup_window_loop a m s rc fuel).ok = false := by
  intro fuel
  induction fuel with
  | zero => intro rc; rfl
  | succ k ih =>
    intro rc
    unfold setup_window_loop
    cases ha : a rc with
    | success => exact absurd ha (h rc)
    | failed => exact ih (rc + 1)
    | raised msg =>
      by_cases hlt : rc + 1 < m
      · rw [if_pos hlt]
        exact ih (rc + 1)
      · rw [if_neg hlt]

theorem setup_window_cases (a : Nat → AttemptOutcome) (m : Nat) (s : WorkerState) :
    ((setup_window a m s).ok = true ∧
      (setup_window a m s).window = { s with status := "idle" }) ∨
    ((setup_window a m s).ok = false ∧
      (setup_window a m s).window =
        { s with status := "error", error_count := s.error_count + 1 }) :=
  setup_loop_window a m s m 0

theorem setup_window_attempts (a : Nat → AttemptOutcome) (m : Nat) (s : WorkerState) :
    (setup_window a m s).attempts ≤ m :=
  setup_loop_attempts a m s m 0

theorem setup_window_allfail (a : Nat → AttemptOutcome) (m : Nat) (s : WorkerState)
    (h : ∀ i, a i ≠ AttemptOutcome.success) :
    (setup_window a m s).ok = false :=
  setup_loop_allfail a m s h m 0

/-- C7: status-domain invariant.  A window starts idle, and the worker
loop, _setup_window, _restart_window and _cleanup_window only ever leave
its status at one of idle, working, paused or error. -/
theorem window_status_domain :
    (∀ q : List Task, (initial_window_state q).status = "idle") ∧
    (∀ (env : IterEnv) (s : WorkerState), status_ok s.status →
      status_ok (worker_iteration env s).status) ∧
    (∀ (a : Nat → AttemptOutcome) (m : Nat) (s : WorkerState),
      status_ok (setup_window a m s).window.status) ∧
    (∀ (c : CleanupOutcome) (a : Nat → AttemptOutcome) (m : Nat) (s : WorkerState),
      status_ok s.status → status_ok (restart_window c a m s).window.status) ∧
    (∀ s : WorkerState, (cleanup_window s).status = s.status) := by
  have hsetup : ∀ (a : Nat → AttemptOutcome) (m : Nat) (s : WorkerState),
      status_ok (setup_window a m s).window.status := by
    intro a m s
    rcases setup_window_cases a m s with ⟨_, h2⟩ | ⟨_, h2⟩
    · rw [h2]; exact Or.inl rfl
    · rw [h2]; exact Or.inr (Or.inr (Or.inr rfl))
  refine ⟨fun _ => rfl, ?_, hsetup, ?_, fun _ => rfl⟩
  · intro env s h
    unfold worker_iteration
    by_cases h1 : s.status = "error"
    · simp only [h1, if_true, reduceIte]
      cases env.restart with
      | success => exact Or.inl rfl
      | setup_failed => exact Or.inr (Or.inr (Or.inr rfl))
      | raised m => exact h
    · by_cases h2 : s.status = "paused"
      · simp only [h1, h2, if_true, if_false, reduceIte]
        exact h
      · cases hp : s.pending with
        | nil => simp only [h1, h2, hp, if_false, reduceIte]; exact h
        | cons task rest =>
          by_cases hc : env.page_connected
          · simp only [h1, h2, hp, hc, if_true, if_false, reduceIte]
            exact status_ok_process env _ task
          · cases hr : env.restart with
            | success =>
              simp only [h1, h2, hp, hc, hr, if_false, reduceIte, Bool.false_eq_true]
              exact status_ok_process env _ task
            | setup_failed =>
              simp only [h1, h2, hp, hc, hr, if_false, reduceIte, Bool.false_eq_true]
              exact Or.inr (Or.inr (Or.inr rfl))
            | raised m =>
              simp only [h1, h2, hp, hc, hr, if_false, reduceIte, Bool.false_eq_true]
              exact Or.inr (Or.inl rfl)
  · intro c a m s h
    cases c with
    | raised m2 => exact h
    | ok =>
      unfold restart_window
      by_cases hok : (setup_window a m s).ok
      · simp only [hok, if_true, reduceIte]
        exact hsetup a m s
      · simp only [hok, if_false, reduceIte, Bool.false_eq_true]
        exact hsetup a m s

/-- Witness for C7: a concrete iteration out of an idle window keeps the
status inside the allowed set. -/
theorem window_status_domain_witness :
    status_ok (worker_iteration gate_env (initial_window_state [cex_task])).status :=
  window_status_domain.2.1 gate_env (initial_window_state [cex_task]) (Or.inl rfl)

/-- C4: bounded reconnect.  The retry loop of _setup_window makes at most
max_retries attempts; when every attempt fails it returns False, leaves
the status at error and increments the error count exactly once; and
_restart_window makes at most the same bounded number of attempts and
returns False when they all fail, instead of retrying forever. -/
theorem setup_and_restart_bounded (a : Nat → AttemptOutcome) (m : Nat)
    (s : WorkerState) (c : CleanupOutcome) :
    (setup_window a m s).attempts ≤ m ∧
    ((∀ i, a i ≠ AttemptOutcome.success) →
      (setup_window a m s).ok = false ∧
      (setup_window a m s).window.status = "error" ∧
      (setup_window a m s).window.error_count = s.error_count + 1) ∧
    (restart_window c a m s).attempts ≤ m ∧
    ((∀ i, a i ≠ AttemptOutcome.success) →
      (restart_window c a m s).ok = false) := by
  have hb : (setup_window a m s).attempts ≤ m := setup_window_attempts a m s
  have hfail : (∀ i, a i ≠ AttemptOutcome.success) →
      (setup_window a m s).ok = false ∧
      (setup_window a m s).window.status = "error" ∧
      (setup_window a m s).window.error_count = s.error_count + 1 := by
    intro h
    have hok := setup_window_allfail a m s h
    rcases setup_window_cases a m s with ⟨h1, _⟩ | ⟨_, h2⟩
    · rw [hok] at h1; exact absurd h1 (by decide)
    · exact ⟨hok, by rw [h2], by rw [h2]⟩
  refine ⟨hb, hfail, ?_, ?_⟩
  · cases c with
    | raised m2 => exact Nat.zero_le m
    | ok =>
      unfold restart_window
      by_cases hok : (setup_window a m s).ok
      · simp only [hok, if_true, reduceIte]; exact hb
      · simp only [hok, if_false, reduceIte, Bool.false_eq_true]; exact hb
  · intro h
    cases c with
    | raised m2 => rfl
    | ok =>
      unfold restart_window
      have hok := (hfail h).1
      simp only [hok, Bool.false_eq_true, if_false, reduceIte]

/-- Witness for C4: three attempts that all fail leave an error status,
one error-count increment, and a False result from both functions. -/
theorem setup_and_restart_bounded_witness :
    (setup_window failing_attempts 3 (initial_window_state [])).attempts ≤ 3 ∧
    (setup_window failing_attempts 3 (initial_window_state [])).ok = false ∧
    (setup_window failing_attempts 3 (initial_window_state [])).window.status = "error" ∧
    (restart_window CleanupOutcome.ok failing_attempts 3
      (initial_window_state [])).ok = false := by
  have h := setup_and_restart_bounded failing_attempts 3
    (initial_window_state []) CleanupOutcome.ok
  have hne : ∀ i, failing_attempts i ≠ AttemptOutcome.success := by
    intro i
    show AttemptOutcome.failed ≠ AttemptOutcome.success
    decide
  exact ⟨h.1, (h.2.1 hne).1, (h.2.1 hne).2.1, h.2.2.2 hne⟩


/-- Counterexample for C3 as stated: at time 9 check_points returns the
non-None value 100 (a cache hit on the entry scraped at time 0), yet the
next call only 6 seconds later, at time 15, does not serve 100 from the
cache: the 10-second window is anchored at the scrape timestamp 0, so the
entry is discarded and the page is scraped afresh, here yielding 42. -/
theorem check_points_cache_claim_cex :
    (check_points (sample_env "100") 1 9 [(1, ⟨100, 0⟩)]).result = some 100 ∧
    (check_points (sample_env "100") 1 9 [(1, ⟨100, 0⟩)]).scraped = false ∧
    check_points (sample_env "42") 1 15 [(1, ⟨100, 0⟩)] =
      ⟨some 42, [(1, ⟨42, 15⟩)], true⟩ := by
  have h9 : (9 : Rat) < 10 := by norm_num
  have h15 : ¬((15 : Rat) - 0 < 10) := by norm_num
  have hle : (10 : Rat) ≤ 15 := by norm_num
  have hcr : ¬("credits" = "") := by decide
  have h42 : py_int "42" = some 42 := by decide
  have hr42 : points_reasonable 42 = true := by decide
  refine ⟨?_, ?_, ?_⟩
  · simp [check_points, cache_lookup, cache_expiry_seconds, h9]
  · simp [check_points, cache_lookup, cache_expiry_seconds, h9]
  · simp [check_points, cache_lookup, cache_expiry_seconds, h15, hle, check_points_scrape,
      sample_env, safe_extract_points, method1, method1_after,
      parse_points_from_page_text, page_text_patterns, findall_loop,
      cache_erase, cache_insert, hcr, h42, hr42]

/-- C3 (amended): the 10-second cache window is anchored at the timestamp
stored when a value was freshly scraped.  If the cache holds the entry
(v, t) for a page, a check_points call at time tq with tq - t < 10 returns
v from the cache without scraping and leaves the cache unchanged; a call
with tq - t at least 10 deletes the entry and proceeds to the scraping
phase; and a fresh scrape that reads v stores v with the call-start time
as the new timestamp. -/
theorem check_points_cache_window (env : PageEnv) (pid : Nat) (t tq : Rat)
    (cache : Cache) (v : Int)
    (hc : cache_lookup cache pid = some ⟨v, t⟩) :
    (tq - t < 10 → check_points env pid tq cache = ⟨some v, cache, false⟩) ∧
    (10 ≤ tq - t →
      check_points env pid tq cache =
        check_points_scrape env pid tq (cache_erase cache pid)) ∧
    (∀ (env2 : PageEnv) (c2 : Cache) (t2 : Rat),
      cache_lookup c2 pid = none → env2.url_check = Except.ok () →
      safe_extract_points env2 = some v →
      check_points env2 pid t2 c2 = ⟨some v, cache_insert c2 pid ⟨v, t2⟩, true⟩) := by
  refine ⟨?_, ?_, ?_⟩
  · intro h
    simp [check_points, hc, cache_expiry_seconds, h]
  · intro h
    simp [check_points, hc, cache_expiry_seconds, not_lt.mpr h]
  · intro env2 c2 t2 h1 h2 h3
    simp [check_points, h1, check_points_scrape, h2, h3]

/-- Witness for C3 (amended) at a concrete cache and time: a hit inside
the window serves the cached value without scraping. -/
theorem check_points_cache_window_witness :
    check_points (sample_env "42") 1 9 [(1, ⟨100, 0⟩)] =
      ⟨some 100, [(1, ⟨100, 0⟩)], false⟩ :=
  (check_points_cache_window (sample_env "42") 1 0 9 [(1, ⟨100, 0⟩)] 100 rfl).1
    (by norm_num)

/-- C8: best-effort scrape.  The embedding of check_points is total over
every combination of oracle outcomes, including raising ones, so no
underlying exception reaches the caller: for every page environment the
call produces either an integer balance or None, and when every page
operation raises (with any message, greenlet or not) it produces None and
leaves the cache alone. -/
theorem check_points_never_propagates :
    (∀ (env : PageEnv) (pid : Nat) (t : Rat) (cache : Cache),
      (∃ v : Int, (check_points env pid t cache).result = some v) ∨
        (check_points env pid t cache).result = none) ∧
    (∀ (m : PyErr) (pid : Nat) (t : Rat),
      (check_points (all_error_env m) pid t []).result = none ∧
      (check_points (all_error_env m) pid t []).cache = []) := by
  constructor
  · intro env pid t cache
    cases h : (check_points env pid t cache).result with
    | some v => exact Or.inl ⟨v, rfl⟩
    | none => exact Or.inr rfl
  · intro m pid t
    by_cases hg : is_greenlet_error m = true
    · constructor <;>
        simp [check_points, cache_lookup, check_points_scrape, all_error_env, hg]
    · constructor <;>
        simp [check_points, cache_lookup, check_points_scrape, all_error_env, hg,
          safe_extract_points, method1, method1_after, extract_selectors_loop,
          extract_elems_loop, indicator_loop, reliable_selectors,
          insufficient_indicators]

theorem points_reasonable_spec (p : Int) (h : points_reasonable p = true) :
    0 ≤ p ∧ p ≤ 10000 := by
  simp only [points_reasonable, Bool.and_eq_true, decide_eq_true_eq] at h
  exact h

theorem findall_loop_range :
    ∀ (gs : List (List String)) (v : Int),
      findall_loop gs = some v → 0 ≤ v ∧ v ≤ 10000 := by
  intro gs
  induction gs with
  | nil => intro v h; simp [findall_loop] at h
  | cons g rest ih =>
    intro v h
    cases g with
    | nil =>
      rw [show findall_loop ([] :: rest) = findall_loop rest from rfl] at h
      exact ih v h
    | cons m tl =>
      rw [show findall_loop ((m :: tl) :: rest) =
          (match py_int m with
           | none => findall_loop rest
           | some p => if points_reasonable p then some p
                       else findall_loop rest) from rfl] at h
      cases hm : py_int m with
      | none => simp only [hm] at h; exact ih v h
      | some p =>
        simp only [hm] at h
        by_cases hp : points_reasonable p = true
        · rw [if_pos hp] at h
          injection h with h2
          exact h2 ▸ points_reasonable_spec p hp
        · rw [if_neg hp] at h
          exact ih v h

theorem search_loop_range (search : String → String → Option String)
    (text : String) :
    ∀ (ps : List String) (v : Int),
      search_loop search text ps = some v → 0 ≤ v ∧ v ≤ 10000 := by
  intro ps
  induction ps with
  | nil => intro v h; simp [search_loop] at h
  | cons p rest ih =>
    intro v h
    unfold search_loop at h
    cases hs : search p text with
    | none => simp only [hs] at h; exact ih v h
    | some g =>
      simp only [hs] at h
      cases hg : py_int g with
      | none => simp only [hg] at h; exact ih v h
      | some w =>
        simp only [hg] at h
        by_cases hw : points_reasonable w = true
        · rw [if_pos hw] at h
          injection h with h2
          exact h2 ▸ points_reasonable_spec w hw
        · rw [if_neg hw] at h
          exact ih v h

theorem parse_points_from_text_range (search : String → String → Option String)
    (t : String) (v : Int) (h : parse_points_from_text search t = some v) :
    0 ≤ v ∧ v ≤ 10000 := by
  unfold parse_points_from_text at h
  by_cases h0 : t = ""
  · rw [if_pos h0] at h; cases h
  · rw [if_neg h0] at h
    simp only at h
    by_cases hd : py_isdigit (py_strip t) = true
    · simp only [hd, if_true, reduceIte] at h
      cases hi : py_int (py_strip t) with
      | none =>
        simp only [hi] at h
        exact search_loop_range search (py_strip t) text_patterns v h
      | some p =>
        simp only [hi] at h
        by_cases hp : points_reasonable p = true
        · simp only [hp, if_true, reduceIte] at h
          injection h with h2
          exact h2 ▸ points_reasonable_spec p hp
        · simp only [hp, if_false, reduceIte, Bool.false_eq_true] at h
          exact search_loop_range search (py_strip t) text_patterns v h
    · simp only [hd, if_false, reduceIte, Bool.false_eq_true] at h
      exact search_loop_range search (py_strip t) text_patterns v h

theorem parse_points_from_page_text_range
    (findall : String → String → List String) (t : String) (v : Int)
    (h : parse_points_from_page_text findall t = some v) :
    0 ≤ v ∧ v ≤ 10000 := by
  unfold parse_points_from_page_text at h
  by_cases h0 : t = ""
  · rw [if_pos h0] at h; cases h
  · rw [if_neg h0] at h
    exact findall_loop_range _ v h

theorem extract_elems_loop_range (search : String → String → Option String) :
    ∀ (es : List ElemOutcome) (v : Int),
      extract_elems_loop search es = some v → 0 ≤ v ∧ v ≤ 10000 := by
  intro es
  induction es with
  | nil => intro v h; simp [extract_elems_loop] at h
  | cons e rest ih =>
    intro v h
    cases e with
    | raised m =>
      rw [show extract_elems_loop search (ElemOutcome.raised m :: rest) =
          extract_elems_loop search rest from rfl] at h
      exact ih v h
    | hidden =>
      rw [show extract_elems_loop search (ElemOutcome.hidden :: rest) =
          extract_elems_loop search rest from rfl] at h
      exact ih v h
    | text t =>
      cases t with
      | none =>
        rw [show extract_elems_loop search (ElemOutcome.text none :: rest) =
            extract_elems_loop search rest from rfl] at h
        exact ih v h
      | some s =>
        rw [show extract_elems_loop search (ElemOutcome.text (some s) :: rest) =
            (if s = "" then extract_elems_loop search rest
             else
               match parse_points_from_text search s with
               | some v => some v
               | none => extract_elems_loop search rest) from rfl] at h
        by_cases h0 : s = ""
        · rw [if_pos h0] at h; exact ih v h
        · rw [if_neg h0] at h
          cases hp : parse_points_from_text search s with
          | none => simp only [hp] at h; exact ih v h
          | some w =>
            simp only [hp] at h
            injection h with h2
            exact h2 ▸ parse_points_from_text_range search s w hp

theorem extract_selectors_loop_range (env : PageEnv) :
    ∀ (ss : List String) (v : Int),
      extract_selectors_loop env ss = some v → 0 ≤ v ∧ v ≤ 10000 := by
  intro ss
  induction ss with
  | nil => intro v h; simp [extract_selectors_loop] at h
  | cons s rest ih =>
    intro v h
    unfold extract_selectors_loop at h
    cases hl : env.locate s with
    | raised m => simp only [hl] at h; exact ih v h
    | elems es =>
      simp only [hl] at h
      cases he : extract_elems_loop env.search (es.take 3) with
      | none => simp only [he] at h; exact ih v h
      | some w =>
        simp only [he] at h
        injection h with h2
        exact h2 ▸ extract_elems_loop_range env.search (es.take 3) w he

theorem indicator_loop_zero (env : PageEnv) :
    ∀ (l : List String) (z : Int), indicator_loop env l = some z → z = 0 := by
  intro l
  induction l with
  | nil => intro z h; simp [indicator_loop] at h
  | cons ind rest ih =>
    intro z h
    unfold indicator_loop at h
    cases hi : env.indicator_count ind with
    | error m => simp only [hi] at h; exact ih z h
    | ok n =>
      simp only [hi] at h
      by_cases hn : n > 0
      · rw [if_pos hn] at h
        injection h with h2
        exact h2.symm
      · rw [if_neg hn] at h
        exact ih z h

theorem method1_after_range (env : PageEnv) (pt : Option String) (v : Int)
    (h : method1_after env pt = M1.found v) : 0 ≤ v ∧ v ≤ 10000 := by
  unfold method1_after at h
  cases pt with
  | none => cases h
  | some t =>
    simp only at h
    by_cases h0 : t = ""
    · rw [if_pos h0] at h; cases h
    · rw [if_neg h0] at h
      cases hp : parse_points_from_page_text env.findall t with
      | none => simp only [hp] at h; cases h
      | some w =>
        simp only [hp] at h
        injection h with h2
        exact h2 ▸ parse_points_from_page_text_range env.findall t w hp

theorem method1_range (env : PageEnv) (v : Int) (h : method1 env = M1.found v) :
    0 ≤ v ∧ v ≤ 10000 := by
  unfold method1 at h
  cases ht : env.text_content_body with
  | ok pt => simp only [ht] at h; exact method1_after_range env pt v h
  | error pe =>
    simp only [ht] at h
    by_cases hg : is_greenlet_error pe = true
    · rw [if_pos hg] at h; cases h
    · rw [if_neg hg] at h
      cases he : env.evaluate_inner_text with
      | ok pt => simp only [he] at h; exact method1_after_range env pt v h
      | error ee =>
        simp only [he] at h
        by_cases hg2 : is_greenlet_error ee = true
        · rw [if_pos hg2] at h; cases h
        · rw [if_neg hg2] at h; exact method1_after_range env none v h

theorem safe_extract_points_range (env : PageEnv) (v : Int)
    (h : safe_extract_points env = some v) : 0 ≤ v ∧ v ≤ 10000 := by
  unfold safe_extract_points at h
  cases hm : method1 env with
  | found w =>
    simp only [hm] at h
    injection h with h2
    exact h2 ▸ method1_range env w hm
  | early_none =>
    simp only [hm] at h
    exact Option.noConfusion h
  | fallthrough =>
    simp only [hm] at h
    cases hs : extract_selectors_loop env reliable_selectors with
    | some w =>
      simp only [hs] at h
      injection h with h2
      exact h2 ▸ extract_selectors_loop_range env reliable_selectors w hs
    | none =>
      simp only [hs] at h
      cases hi : indicator_loop env insufficient_indicators with
      | some z =>
        simp only [hi] at h
        injection h with h2
        have hz := indicator_loop_zero env insufficient_indicators z hi
        rw [← h2, hz]
        exact ⟨le_refl 0, by norm_num⟩
      | none =>
        simp only [hi] at h
        exact Option.noConfusion h

theorem check_points_scrape_range (env : PageEnv) (pid : Nat) (t : Rat)
    (c : Cache) (v : Int)
    (h : (check_points_scrape env pid t c).result = some v) :
    0 ≤ v ∧ v ≤ 10000 := by
  unfold check_points_scrape at h
  by_cases hb : (match env.url_check with
    | .ok _ => false
    | .error m => is_greenlet_error m) = true
  · rw [if_pos hb] at h; cases h
  · rw [if_neg hb] at h
    cases hs : safe_extract_points env with
    | some w =>
      simp only [hs] at h
      injection h with h2
      exact h2 ▸ safe_extract_points_range env w hs
    | none =>
      simp only [hs] at h
      exact Option.noConfusion h

theorem cache_lookup_mem (c : Cache) (k : Nat) (e : CacheEntry)
    (h : cache_lookup c k = some e) : ∃ pr ∈ c, pr.2 = e := by
  unfold cache_lookup at h
  cases hf : c.find? (fun e => e.1 == k) with
  | none =>
    simp only [hf] at h
    exact Option.noConfusion h
  | some pr =>
    simp only [hf] at h
    injection h with h2
    exact ⟨pr, List.mem_of_find?_eq_some hf, h2⟩

/-- C10: balance sanity range.  Every non-None value produced by the two
points parsers lies in [0, 10000] (out-of-range numbers are rejected),
the whole extraction only yields values in [0, 10000], the
insufficient-points fallback yields exactly 0, and check_points itself
only returns values in [0, 10000] whenever the cache only holds such
values (which it does, since entries come from earlier extractions). -/
theorem points_values_in_range :
    (∀ (search : String → String → Option String) (t : String) (v : Int),
      parse_points_from_text search t = some v → 0 ≤ v ∧ v ≤ 10000) ∧
    (∀ (findall : String → String → List String) (t : String) (v : Int),
      parse_points_from_page_text findall t = some v → 0 ≤ v ∧ v ≤ 10000) ∧
    (∀ (env : PageEnv) (v : Int),
      safe_extract_points env = some v → 0 ≤ v ∧ v ≤ 10000) ∧
    (∀ (env : PageEnv) (l : List String) (z : Int),
      indicator_loop env l = some z → z = 0) ∧
    (∀ (env : PageEnv) (pid : Nat) (t : Rat) (cache : Cache) (v : Int),
      (∀ e ∈ cache, 0 ≤ e.2.points ∧ e.2.points ≤ 10000) →
      (check_points env pid t cache).result = some v →
      0 ≤ v ∧ v ≤ 10000) := by
  refine ⟨parse_points_from_text_range, parse_points_from_page_text_range,
    safe_extract_points_range, indicator_loop_zero, ?_⟩
  intro env pid t cache v hcache h
  unfold check_points at h
  cases hl : cache_lookup cache pid with
  | some e =>
    simp only [hl] at h
    by_cases ht : t - e.timestamp < cache_expiry_seconds
    · rw [if_pos ht] at h
      injection h with h2
      obtain ⟨pr, hmem, hpr⟩ := cache_lookup_mem cache pid e hl
      exact h2 ▸ (hpr ▸ hcache pr hmem)
    · rw [if_neg ht] at h
      exact check_points_scrape_range env pid t (cache_erase cache pid) v h
  | none =>
    simp only [hl] at h
    exact check_points_scrape_range env pid t cache v h

/-- Witness for C10 at a concrete parse. -/
theorem points_values_in_range_witness :
    parse_points_from_text (fun _ _ => none) "5" = some 5 ∧
    0 ≤ (5 : Int) ∧ (5 : Int) ≤ 10000 := by
  have hp : parse_points_from_text (fun _ _ => none) "5" = some 5 := by decide
  have h := points_values_in_range.1 (fun _ _ => none) "5" 5 hp
  exact ⟨hp, h.1, h.2⟩

theorem prior_prompts_nil_of_le (pc sr : Nat) (scanned : List (List Cell))
    (h : scanned.length ≤ sr - 1) : prior_prompts pc sr scanned = [] := by
  unfold prior_prompts
  rw [List.drop_eq_nil_of_le h]
  rfl

theorem prior_prompts_append (pc sr : Nat) (scanned : List (List Cell))
    (row : List Cell) (h : sr - 1 ≤ scanned.length) :
    prior_prompts pc sr (scanned ++ [row]) =
      prior_prompts pc sr scanned ++ (prompt_cell_text (cell_at row pc)).toList := by
  unfold prior_prompts
  rw [List.drop_append_of_le_length h, List.filterMap_append]
  cases hp : prompt_cell_text (cell_at row pc) <;>
    simp [List.filterMap_cons, hp]

theorem process_eq_spec (fp st : String) (pc sc sr : Nat) (gen : String → Bool) :
    ∀ (rows scanned : List (List Cell)) (seen : List String),
      (∀ q : String, q ∈ seen ↔ q ∈ prior_prompts pc sr scanned) →
      (process_file_rows fp st pc sc sr gen rows (scanned.length + 1) seen).1 =
        spec_tasks fp st pc sc sr gen rows (scanned.length + 1) scanned := by
  intro rows
  induction rows with
  | nil => intro scanned seen hseen; rfl
  | cons row rows ih =>
    intro scanned seen hseen
    have hlen1 : (scanned ++ [row]).length = scanned.length + 1 := by simp
    simp only [process_file_rows, spec_tasks]
    by_cases hlt : scanned.length + 1 < sr
    · rw [if_pos hlt, if_pos hlt]
      have hinv : ∀ q : String, q ∈ seen ↔ q ∈ prior_prompts pc sr (scanned ++ [row]) := by
        intro q
        have h2 := hseen q
        rw [prior_prompts_nil_of_le pc sr scanned (by omega)] at h2
        rw [prior_prompts_nil_of_le pc sr (scanned ++ [row]) (by rw [hlen1]; omega)]
        exact h2
      have hrec := ih (scanned ++ [row]) seen hinv
      rw [hlen1] at hrec
      exact hrec
    · rw [if_neg hlt, if_neg hlt]
      have hsr : sr - 1 ≤ scanned.length := by omega
      cases hp : prompt_cell_text (cell_at row pc) with
      | none =>
        simp only [hp]
        have hinv : ∀ q : String, q ∈ seen ↔ q ∈ prior_prompts pc sr (scanned ++ [row]) := by
          intro q
          rw [prior_prompts_append pc sr scanned row hsr, hp]
          simpa using hseen q
        have hrec := ih (scanned ++ [row]) seen hinv
        rw [hlen1] at hrec
        exact hrec
      | some p =>
        simp only [hp]
        have hinv_cons : ∀ q : String,
            q ∈ p :: seen ↔ q ∈ prior_prompts pc sr (scanned ++ [row]) := by
          intro q
          rw [prior_prompts_append pc sr scanned row hsr, hp]
          constructor
          · intro hq
            rcases List.mem_cons.mp hq with rfl | hq2
            · exact List.mem_append.mpr (Or.inr (by simp))
            · exact List.mem_append.mpr (Or.inl ((hseen q).mp hq2))
          · intro hq
            rcases List.mem_append.mp hq with hq2 | hq2
            · exact List.mem_cons.mpr (Or.inr ((hseen q).mpr hq2))
            · exact List.mem_cons.mpr (Or.inl (by simpa using hq2))
        by_cases hps : p ∈ seen
        · rw [if_pos hps, if_pos ((hseen p).mp hps)]
          have hinv : ∀ q : String,
              q ∈ seen ↔ q ∈ prior_prompts pc sr (scanned ++ [row]) := by
            intro q
            rw [prior_prompts_append pc sr scanned row hsr, hp]
            constructor
            · intro hq
              exact List.mem_append.mpr (Or.inl ((hseen q).mp hq))
            · intro hq
              rcases List.mem_append.mp hq with hq2 | hq2
              · exact (hseen q).mpr hq2
              · have hqp : q = p := by simpa using hq2
                rw [hqp]
                exact hps
          have hrec := ih (scanned ++ [row]) seen hinv
          rw [hlen1] at hrec
          exact hrec
        · rw [if_neg hps, if_neg (fun hq => hps ((hseen p).mpr hq))]
          by_cases hst : status_is_processed st (cell_at row sc) = true
          · rw [if_pos hst, if_pos hst]
            have hrec := ih (scanned ++ [row]) (p :: seen) hinv_cons
            rw [hlen1] at hrec
            exact hrec
          · rw [if_neg hst, if_neg hst]
            by_cases hg : gen p = true
            · rw [if_pos hg, if_pos hg]
              have hrec := ih (scanned ++ [row]) (p :: seen) hinv_cons
              rw [hlen1] at hrec
              exact hrec
            · rw [if_neg hg, if_neg hg]
              have hrec := ih (scanned ++ [row]) (p :: seen) hinv_cons
              rw [hlen1] at hrec
              exact congrArg (List.cons ⟨p, fp, scanned.length + 1⟩) hrec

/-- Counterexample for C5 as stated: in the concrete sheet cex_rows with
prompt column 2, status column 3 and start row 2, row 3 is at or after the
start row, carries the non-empty prompt cat, and its status cell does not
carry the processed marker, yet no returned task carries row number 3: the
identical prompt in row 2 already produced the only task, and the global
prompt deduplication silently drops the row-3 occurrence. -/
theorem get_unprocessed_prompts_cex :
    prompt_cell_text (cell_at [none, some "cat", none] 2) = some "cat" ∧
    status_is_processed "已生成图片" (cell_at [none, some "cat", none] 3) = false ∧
    (get_unprocessed_prompts "f.xlsx" "已生成图片" 2 3 2 (fun _ => false)
        cex_rows).filter (fun t => t.row_number == 3) = [] ∧
    get_unprocessed_prompts "f.xlsx" "已生成图片" 2 3 2 (fun _ => false) cex_rows =
      [⟨"cat", "f.xlsx", 2⟩] := by
  refine ⟨by decide, by decide, by decide, by decide⟩

/-- C5 (amended): get_unprocessed_prompts returns exactly one task per
spreadsheet row that is at or after the configured start row, whose prompt
cell strips to a non-empty text that does not already occur as the
stripped prompt of an earlier row at or after the start row, whose status
cell carries neither the processed marker nor the needs-changing marker,
and for which no image has already been generated; the task carries the
stripped prompt text, the source file path, and the 1-based row number.
The right-hand side spec_tasks is that per-row specification written out
directly. -/
theorem get_unprocessed_prompts_spec (fp st : String) (pc sc sr : Nat)
    (gen : String → Bool) (rows : List (List Cell)) :
    get_unprocessed_prompts fp st pc sc sr gen rows =
      spec_tasks fp st pc sc sr gen rows 1 [] := by
  have h := process_eq_spec fp st pc sc sr gen rows [] []
    (by intro q; simp [prior_prompts])
  simpa [get_unprocessed_prompts] using h

theorem getElem?_getD_of_lt (l : List (List Cell)) (r : Nat) (h : r < l.length) :
    l[r]? = some (l.getD r []) := by
  rw [List.getD_eq_getElem?_getD, List.getElem?_eq_getElem h, Option.getD_some]

theorem getD_set_eq {α : Type} (l : List α) (i : Nat) (a d : α)
    (h : i < l.length) : (l.set i a).getD i d = a := by
  rw [List.getD_eq_getElem?_getD, List.getElem?_set_self h, Option.getD_some]

theorem getD_set_ne {α : Type} (l : List α) (i j : Nat) (a d : α)
    (h : i ≠ j) : (l.set i a).getD j d = l.getD j d := by
  rw [List.getD_eq_getElem?_getD, List.getElem?_set_ne h,
    ← List.getD_eq_getElem?_getD]

theorem sheet_width_le (sheet : List (List Cell)) (row : List Cell)
    (h : row ∈ sheet) : row.length ≤ sheet_width sheet := by
  induction sheet with
  | nil => cases h
  | cons r rs ih =>
    rcases List.mem_cons.mp h with rfl | hmem
    · exact Nat.le_max_left _ _
    · exact Nat.le_trans (ih hmem) (Nat.le_max_right _ _)

theorem pad_row_length (w : Nat) (row : List Cell) (h : row.length ≤ w) :
    (pad_row w row).length = w := by
  simp only [pad_row, List.length_append, List.length_replicate]
  omega

theorem pad_row_getD (w : Nat) (row : List Cell) (c : Nat)
    (h : c < row.length) : (pad_row w row).getD c none = row.getD c none := by
  rw [List.getD_eq_getElem?_getD]
  rw [show (pad_row w row)[c]? = row[c]? by simp [pad_row, List.getElem?_append, h]]
  rw [← List.getD_eq_getElem?_getD]

theorem getD_map_pad (sheet : List (List Cell)) (w : Nat) (r : Nat)
    (h : r < sheet.length) :
    (sheet.map (pad_row w)).getD r [] = pad_row w (sheet.getD r []) := by
  rw [List.getD_eq_getElem?_getD, List.getElem?_map,
    getElem?_getD_of_lt sheet r h, Option.map_some', Option.getD_some]

theorem sheet_getD_mem (sheet : List (List Cell)) (r : Nat)
    (h : r < sheet.length) : sheet.getD r [] ∈ sheet := by
  rw [List.getD_eq_getElem?_getD, List.getElem?_eq_getElem h, Option.getD_some]
  exact List.getElem_mem h

theorem mark_eq (sheet : List (List Cell)) (rn sc : Nat) (txt : String)
    (h : rn - 1 < sheet.length) :
    mark_prompt_as_processed sheet rn sc txt =
      (sheet.map (pad_row (max sc (sheet_width sheet)))).set (rn - 1)
        ((pad_row (max sc (sheet_width sheet)) (sheet.getD (rn - 1) [])).set
          (sc - 1) (some txt)) := by
  have hcond : rn - 1 < (sheet.map (pad_row (max sc (sheet_width sheet)))).length := by
    simpa using h
  simp only [mark_prompt_as_processed]
  rw [if_pos hcond, getD_map_pad sheet _ _ h]

/-- C6: spreadsheet frame condition.  For a row number inside the sheet
and a 1-based status column, mark_prompt_as_processed writes status_text
into exactly the cell at that row and column, keeps the number of rows,
and every other cell that existed in the sheet keeps its previous
value. -/
theorem mark_prompt_as_processed_frame (sheet : List (List Cell)) (rn sc : Nat)
    (txt : String) (hr1 : 1 ≤ rn) (hr2 : rn ≤ sheet.length) (hc : 1 ≤ sc) :
    cell_at ((mark_prompt_as_processed sheet rn sc txt).getD (rn - 1) []) sc =
      some txt ∧
    (mark_prompt_as_processed sheet rn sc txt).length = sheet.length ∧
    (∀ r c : Nat, r < sheet.length → c < (sheet.getD r []).length →
      ¬(r = rn - 1 ∧ c = sc - 1) →
      ((mark_prompt_as_processed sheet rn sc txt).getD r []).getD c none =
        (sheet.getD r []).getD c none) := by
  have hrn : rn - 1 < sheet.length := by omega
  have hmark := mark_eq sheet rn sc txt hrn
  have hmaplen : rn - 1 < (sheet.map (pad_row (max sc (sheet_width sheet)))).length := by
    simpa using hrn
  have hrowlen : (sheet.getD (rn - 1) []).length ≤ max sc (sheet_width sheet) :=
    Nat.le_trans (sheet_width_le sheet _ (sheet_getD_mem sheet _ hrn))
      (Nat.le_max_right _ _)
  have hpadlen : (pad_row (max sc (sheet_width sheet)) (sheet.getD (rn - 1) [])).length =
      max sc (sheet_width sheet) := pad_row_length _ _ hrowlen
  have hscmc : sc ≤ max sc (sheet_width sheet) := Nat.le_max_left _ _
  refine ⟨?_, ?_, ?_⟩
  · rw [hmark, getD_set_eq _ _ _ _ hmaplen]
    unfold cell_at
    rw [if_pos (by rw [List.length_set, hpadlen]; exact hscmc)]
    rw [getD_set_eq _ _ _ _ (by rw [hpadlen]; omega)]
  · rw [hmark]
    simp
  · intro r c hrl hcl hne
    rw [hmark]
    by_cases hr : r = rn - 1
    · subst hr
      have hcne : sc - 1 ≠ c := fun hcc => hne ⟨rfl, hcc.symm⟩
      rw [getD_set_eq _ _ _ _ hmaplen, getD_set_ne _ _ _ _ _ hcne,
        pad_row_getD _ _ _ hcl]
    · have hrne : rn - 1 ≠ r := fun hh => hr hh.symm
      rw [getD_set_ne _ _ _ _ _ hrne, getD_map_pad sheet _ r hrl,
        pad_row_getD _ _ _ hcl]

/-- Witness for C6 at a concrete ragged sheet: the target cell receives
the marker and an untouched cell keeps its value. -/
theorem mark_prompt_as_processed_frame_witness :
    cell_at ((mark_prompt_as_processed wit_sheet 2 3 "done").getD 1 []) 3 =
      some "done" ∧
    ((mark_prompt_as_processed wit_sheet 2 3 "done").getD 0 []).getD 0 none =
      (wit_sheet.getD 0 []).getD 0 none := by
  have h := mark_prompt_as_processed_frame wit_sheet 2 3 "done"
    (by decide) (by decide) (by decide)
  exact ⟨h.1, h.2.2 0 0 (by decide) (by decide) (by decide)⟩

end Dreamina
